import Mathlib

/-!
Shallow embedding of `src/kacamata/native/desktop_duplication.cc`
(class `DesktopDuplicator`).

The class members become a state record (`DupState`).  Every platform call
(D3D11/DXGI) is a call into the environment; its outcome is an explicit
input to the embedded method (`InitEnv`, `CaptureEnv`, `TexEnv`), so each
method is a pure function `state -> environment -> result x state` mirroring
the source line by line.

ComPtr conventions modelled: `operator&` on a ComPtr
(`ReleaseAndGetAddressOf`) releases the held object before the call, and a
failing creation call leaves the out parameter null; so after a failed
`D3D11CreateDevice` / `DuplicateOutput` / `CreateTexture2D` the
corresponding member is null.  A method call through a null ComPtr is a
null dereference (undefined behaviour); the embedding makes it an explicit
`nullDeref` result rather than hiding it.

The pixel contents of textures are abstracted to an identifier (`Nat`): the
copy `context_->CopyResource(staging_texture_, acquired_texture)` stores the
identifier of the acquired frame into the staging texture, and `GetTexture`
reports it back, which is all the claims need of the pixel data.  The
refresh rate is kept as the exact numerator/denominator pair instead of the
C++ `double` quotient.
-/

/-- The `DXGI_OUTDUPL_DESC.ModeDesc` fields the source reads: width, height,
pixel format, refresh-rate rational. -/
structure ModeDesc where
  width : Nat
  height : Nat
  format : Nat
  refreshNum : Nat
  refreshDen : Nat
deriving DecidableEq

/-- The staging texture `staging_texture_`: its creation-time geometry
(copied from `duplication_desc_.ModeDesc` in `CreateDuplication`) and an
abstract identifier of the frame last copied into it (`none` right after
creation, before any `CopyResource`). -/
structure StagingTex where
  width : Nat
  height : Nat
  format : Nat
  contents : Option Nat
deriving DecidableEq

/-- The members of class `DesktopDuplicator`.  The ComPtr members `device_`,
`context_`, `duplication_` are modelled by presence flags (non-null or
null); `staging_texture_` keeps its geometry and abstract contents. -/
structure DupState where
  device_ : Bool
  context_ : Bool
  duplication_ : Bool
  staging_texture_ : Option StagingTex
  duplication_desc_ : ModeDesc
  initialized_ : Bool
  frame_count_ : Nat
deriving DecidableEq

/-- The object right after the constructor: all ComPtrs null,
`initialized_ = false`, `frame_count_ = 0`.  `duplication_desc_` is
uninitialized memory in the source; it is modelled by a fixed arbitrary
value, which no method reads before `CreateDuplication` overwrites it
(`GetFrameInfo` is guarded by `initialized_`, `GetTexture` by
`staging_texture_`, which only exists after `CreateDuplication` set the
descriptor). -/
def initState : DupState :=
  { device_ := false, context_ := false, duplication_ := false
    staging_texture_ := none
    duplication_desc_ := { width := 0, height := 0, format := 0, refreshNum := 0, refreshDen := 0 }
    initialized_ := false, frame_count_ := 0 }

/-- Environment outcomes of the platform calls made by `Initialize`:
`D3D11CreateDevice`, the `QueryInterface`/`GetAdapter`/`EnumOutputs`/
`QueryInterface(IDXGIOutput1)`/`DuplicateOutput` chain of
`CreateDuplication`, the descriptor `GetDesc` reports, and
`CreateTexture2D`. -/
structure InitEnv where
  d3dOk : Bool
  queryDeviceOk : Bool
  getAdapterOk : Bool
  enumOutputOk : Bool
  queryOutput1Ok : Bool
  duplicateOk : Bool
  desc : ModeDesc
  createTextureOk : Bool
deriving DecidableEq

/-- The four outcome classes of `AcquireNextFrame` the source
distinguishes: `DXGI_ERROR_WAIT_TIMEOUT`, `DXGI_ERROR_ACCESS_LOST`, any
other failing HRESULT, and success. -/
inductive AcquireOutcome
  | timeout
  | accessLost
  | otherFail
  | success
deriving DecidableEq

/-- Environment outcomes of one `CaptureFrame` call: the `AcquireNextFrame`
outcome, whether `QueryInterface(ID3D11Texture2D)` on the acquired resource
succeeds, and the abstract identifier of the acquired frame image. -/
structure CaptureEnv where
  acquire : AcquireOutcome
  queryTextureOk : Bool
  frameData : Nat
deriving DecidableEq

/-- Environment outcomes of one `GetTexture` call: whether `Map` succeeds
and the `RowPitch` the mapping reports. -/
structure TexEnv where
  mapOk : Bool
  rowPitch : Nat
deriving DecidableEq

/-- Result of `Initialize` as seen from JavaScript: a returned boolean, or
a thrown `Napi::Error` with its message. -/
inductive InitRes
  | ok (b : Bool)
  | err (msg : String)
deriving DecidableEq

/-- Result of `CaptureFrame`: a returned boolean, a thrown `Napi::Error`,
or a dereference of a null ComPtr (undefined behaviour in the source, made
explicit here). -/
inductive CapRes
  | ok (b : Bool)
  | err (msg : String)
  | nullDeref
deriving DecidableEq

/-- The object `GetTexture` returns on success: the buffer (abstract source
identifier and byte length) plus width/height/pitch metadata. -/
structure TexData where
  dataSrc : Option Nat
  dataLen : Nat
  width : Nat
  height : Nat
  pitch : Nat
deriving DecidableEq

/-- Result of `GetTexture`: `undefined`, a null-ComPtr dereference
(`context_->Map` with null `context_`), or the result object. -/
inductive TexOut
  | undef
  | nullDeref
  | val (t : TexData)
deriving DecidableEq

/-- The object `GetFrameInfo` returns when initialized.  The source exposes
`refreshRate` as the `double` quotient Numerator/Denominator; the embedding
keeps the exact pair. -/
structure FrameInfoOut where
  width : Nat
  height : Nat
  refreshNum : Nat
  refreshDen : Nat
  frameCount : Nat
deriving DecidableEq

/-- `DesktopDuplicator::InitializeD3D11`: `D3D11CreateDevice` into
`&device_`, `&context_`.  `operator&` releases any held objects first; on
failure both out parameters are null.  Returns `SUCCEEDED(hr)`. -/
def InitializeD3D11 (s : DupState) (e : InitEnv) : DupState × Bool :=
  ({ s with device_ := e.d3dOk, context_ := e.d3dOk }, e.d3dOk)

/-- `DesktopDuplicator::CreateDuplication`: the QueryInterface/GetAdapter/
EnumOutputs/QueryInterface chain (all into local ComPtrs, so a failure
there changes no member), then `DuplicateOutput` into `&duplication_`,
`GetDesc` into `duplication_desc_`, and `CreateTexture2D` into
`&staging_texture_` with the descriptor geometry. -/
def CreateDuplication (s : DupState) (e : InitEnv) : DupState × Bool :=
  if !e.queryDeviceOk then (s, false)
  else if !e.getAdapterOk then (s, false)
  else if !e.enumOutputOk then (s, false)
  else if !e.queryOutput1Ok then (s, false)
  else
    let s1 : DupState := { s with duplication_ := e.duplicateOk }
    if !e.duplicateOk then (s1, false)
    else
      let s2 : DupState := { s1 with duplication_desc_ := e.desc }
      let s3 : DupState :=
        { s2 with staging_texture_ :=
            if e.createTextureOk then
              some { width := e.desc.width, height := e.desc.height
                     format := e.desc.format, contents := none }
            else none }
      (s3, e.createTextureOk)

/-- `DesktopDuplicator::Initialize`: early boolean `true` when already
initialized; otherwise `InitializeD3D11`, then `CreateDuplication`, each
failure throwing a `Napi::Error`; on success sets `initialized_`. -/
def Initialize (s : DupState) (e : InitEnv) : InitRes × DupState :=
  if s.initialized_ then (InitRes.ok true, s)
  else
    let r1 := InitializeD3D11 s e
    if !r1.2 then (InitRes.err "Failed to initialize D3D11", r1.1)
    else
      let r2 := CreateDuplication r1.1 e
      if !r2.2 then (InitRes.err "Failed to create desktop duplication", r2.1)
      else (InitRes.ok true, { r2.1 with initialized_ := true })

/-- `DesktopDuplicator::CaptureFrame`.  Not initialized: throw
`"Not initialized"`, return undefined, touch nothing.  Otherwise
`duplication_->AcquireNextFrame(0, ...)` (a null `duplication_` would be a
null dereference): timeout returns `false`; `DXGI_ERROR_ACCESS_LOST`
clears `initialized_` and returns `false`; any other failure returns
`false`; on success, a failing `QueryInterface` releases the frame and
returns `false`, else the frame is copied into `staging_texture_` when that
exists (`context_->CopyResource`, a null dereference if `context_` is
null), the frame is released, `frame_count_` is incremented and `true` is
returned. -/
def CaptureFrame (s : DupState) (e : CaptureEnv) : CapRes × DupState :=
  if !s.initialized_ then (CapRes.err "Not initialized", s)
  else if !s.duplication_ then (CapRes.nullDeref, s)
  else
    match e.acquire with
    | AcquireOutcome.timeout => (CapRes.ok false, s)
    | AcquireOutcome.accessLost => (CapRes.ok false, { s with initialized_ := false })
    | AcquireOutcome.otherFail => (CapRes.ok false, s)
    | AcquireOutcome.success =>
      if !e.queryTextureOk then (CapRes.ok false, s)
      else
        match s.staging_texture_ with
        | some st =>
          if s.context_ then
            (CapRes.ok true,
             { s with staging_texture_ := some { st with contents := some e.frameData },
                      frame_count_ := s.frame_count_ + 1 })
          else (CapRes.nullDeref, s)
        | none => (CapRes.ok true, { s with frame_count_ := s.frame_count_ + 1 })

/-- `DesktopDuplicator::GetTexture`: `undefined` when `staging_texture_` is
null; otherwise `context_->Map` (null dereference if `context_` is null),
`undefined` when `Map` fails; else a buffer of
`duplication_desc_.ModeDesc.Height * RowPitch` bytes copied from the
mapping, plus the descriptor width/height and the mapping `RowPitch`. -/
def GetTexture (s : DupState) (e : TexEnv) : TexOut :=
  match s.staging_texture_ with
  | none => TexOut.undef
  | some st =>
    if !s.context_ then TexOut.nullDeref
    else if !e.mapOk then TexOut.undef
    else
      TexOut.val
        { dataSrc := st.contents
          dataLen := s.duplication_desc_.height * e.rowPitch
          width := s.duplication_desc_.width
          height := s.duplication_desc_.height
          pitch := e.rowPitch }

/-- `DesktopDuplicator::GetFrameInfo`: `undefined` when not initialized,
else the descriptor fields plus `frame_count_`. -/
def GetFrameInfo (s : DupState) : Option FrameInfoOut :=
  if !s.initialized_ then none
  else
    some { width := s.duplication_desc_.width
           height := s.duplication_desc_.height
           refreshNum := s.duplication_desc_.refreshNum
           refreshDen := s.duplication_desc_.refreshDen
           frameCount := s.frame_count_ }

/-- `DesktopDuplicator::Release`: if `duplication_` is non-null,
`ReleaseFrame` then reset it; then reset `staging_texture_`, `context_`,
`device_` in that order; clear `initialized_`.  `frame_count_` and
`duplication_desc_` (plain members) are untouched. -/
def Release (s : DupState) : DupState :=
  { device_ := false, context_ := false, duplication_ := false
    staging_texture_ := none
    duplication_desc_ := s.duplication_desc_
    initialized_ := false
    frame_count_ := s.frame_count_ }

/-- One boundary call on the object, with its environment outcomes. -/
inductive Op
  | initOp (e : InitEnv)
  | captureOp (e : CaptureEnv)
  | textureOp (e : TexEnv)
  | frameInfoOp
  | releaseOp
deriving DecidableEq

/-- The state after one call (`GetTexture` and `GetFrameInfo` do not change
the modelled state: `Map`/`Unmap` pair within the call). -/
def stepState (s : DupState) : Op → DupState
  | Op.initOp e => (Initialize s e).2
  | Op.captureOp e => (CaptureFrame s e).2
  | Op.textureOp _ => s
  | Op.frameInfoOp => s
  | Op.releaseOp => Release s

/-- The result of one call. -/
inductive OpRes
  | initR (r : InitRes)
  | capR (r : CapRes)
  | texR (r : TexOut)
  | infoR (r : Option FrameInfoOut)
  | releaseR
deriving DecidableEq

/-- The result each call returns from a given state. -/
def stepRes (s : DupState) : Op → OpRes
  | Op.initOp e => OpRes.initR (Initialize s e).1
  | Op.captureOp e => OpRes.capR (CaptureFrame s e).1
  | Op.textureOp e => OpRes.texR (GetTexture s e)
  | Op.frameInfoOp => OpRes.infoR (GetFrameInfo s)
  | Op.releaseOp => OpRes.releaseR

/-- Running a sequence of calls from a state. -/
def runOps (s : DupState) (ops : List Op) : DupState :=
  ops.foldl stepState s

/-- A state of one `DesktopDuplicator` object: reachable from the
constructed object by some sequence of calls. -/
def Reachable (s : DupState) : Prop :=
  ∃ ops : List Op, runOps initState ops = s

/-- Well-formedness of a `DesktopDuplicator` state, maintained by every
method: when `initialized_` is set all four resources exist, and the
staging texture geometry always matches the current descriptor (they are
written together in `CreateDuplication`). -/
def SOK (s : DupState) : Prop :=
  (s.initialized_ = true →
    s.device_ = true ∧ s.context_ = true ∧ s.duplication_ = true ∧
      s.staging_texture_.isSome = true) ∧
  (∀ st : StagingTex, s.staging_texture_ = some st →
    st.width = s.duplication_desc_.width ∧ st.height = s.duplication_desc_.height ∧
      st.format = s.duplication_desc_.format)

theorem SOK_initState : SOK initState := by
  constructor
  · intro h
    simp [initState] at h
  · intro st hst
    simp [initState] at hst

theorem SOK_Init (s : DupState) (e : InitEnv) (h : SOK s) : SOK (Initialize s e).2 := by
  obtain ⟨h1, h2⟩ := h
  by_cases hi : s.initialized_ = true
  · simp only [Initialize, hi, if_true]
    exact ⟨h1, h2⟩
  · replace hi : s.initialized_ = false := by simpa using hi
    rcases e with ⟨d3, qd, ga, eo, qo, dup, desc, ct⟩
    cases d3 <;> cases qd <;> cases ga <;> cases eo <;> cases qo <;> cases dup <;> cases ct <;>
      simp_all [Initialize, InitializeD3D11, CreateDuplication, SOK]

theorem SOK_Capture (s : DupState) (e : CaptureEnv) (h : SOK s) : SOK (CaptureFrame s e).2 := by
  obtain ⟨h1, h2⟩ := h
  rcases s with ⟨dev, ctx, dup, stg, desc, ini, fc⟩
  rcases e with ⟨acq, qt, fd⟩
  cases ini <;> cases dup <;> cases acq <;> cases qt <;> cases ctx <;>
    rcases stg with _ | st <;>
      simp_all [CaptureFrame, SOK]

theorem SOK_Release (s : DupState) : SOK (Release s) := by
  constructor
  · intro h
    simp [Release] at h
  · intro st hst
    simp [Release] at hst

theorem SOK_step (s : DupState) (op : Op) (h : SOK s) : SOK (stepState s op) := by
  cases op with
  | initOp e => exact SOK_Init s e h
  | captureOp e => exact SOK_Capture s e h
  | textureOp e => exact h
  | frameInfoOp => exact h
  | releaseOp => exact SOK_Release s

theorem runOps_SOK (ops : List Op) : ∀ s : DupState, SOK s → SOK (runOps s ops) := by
  induction ops with
  | nil => intro s h; exact h
  | cons op rest ih =>
    intro s h
    exact ih (stepState s op) (SOK_step s op h)

theorem reachable_SOK (s : DupState) (h : Reachable s) : SOK s := by
  obtain ⟨ops, hops⟩ := h
  rw [← hops]
  exact runOps_SOK ops initState SOK_initState

/-- The acquire/release micro events of the duplication pipeline inside one
`CaptureFrame` call: an `AcquireNextFrame` attempt, a successful
acquisition, a `ReleaseFrame`. -/
inductive AcqEv
  | attempt
  | acquireOk
  | releaseFrame
deriving DecidableEq

/-- The micro events one `CaptureFrame` call emits, read off the source:
no attempt when the initialized guard rejects the call (or `duplication_`
is null, which would crash before the attempt); a bare attempt on
timeout/failed acquisition; attempt, acquisition and release on every
successful acquisition — the failed `QueryInterface` path also calls
`ReleaseFrame` before returning.  The one exception is the null-`context_`
crash inside `CopyResource`, which would stop execution between the
acquisition and the release (that state is unreachable, see `SOK`). -/
def captureEvents (s : DupState) (e : CaptureEnv) : List AcqEv :=
  if !s.initialized_ then []
  else if !s.duplication_ then []
  else
    match e.acquire with
    | AcquireOutcome.success =>
      if !e.queryTextureOk then [AcqEv.attempt, AcqEv.acquireOk, AcqEv.releaseFrame]
      else
        match s.staging_texture_ with
        | some _ =>
          if s.context_ then [AcqEv.attempt, AcqEv.acquireOk, AcqEv.releaseFrame]
          else [AcqEv.attempt, AcqEv.acquireOk]
        | none => [AcqEv.attempt, AcqEv.acquireOk, AcqEv.releaseFrame]
    | _ => [AcqEv.attempt]

/-- Scan an event list holding `h` outstanding frames: `none` as soon as an
acquisition is attempted while a frame is still held (the pairing
violation), otherwise the number of frames held at the end. -/
def scanHeld : Nat → List AcqEv → Option Nat
  | h, [] => some h
  | h, AcqEv.attempt :: rest => if h = 0 then scanHeld h rest else none
  | h, AcqEv.acquireOk :: rest => if h = 0 then scanHeld 1 rest else none
  | h, AcqEv.releaseFrame :: rest => scanHeld (h - 1) rest

/-- The micro events of a whole sequence of `CaptureFrame` calls; a null
dereference stops execution, so no later call emits events. -/
def captureTrace : DupState → List CaptureEnv → List AcqEv
  | _, [] => []
  | s, e :: rest =>
    captureEvents s e ++
      (if (CaptureFrame s e).1 = CapRes.nullDeref then []
       else captureTrace (CaptureFrame s e).2 rest)

theorem scanHeld_append (l1 l2 : List AcqEv) :
    ∀ h : Nat, scanHeld h (l1 ++ l2) = (scanHeld h l1).bind fun g => scanHeld g l2 := by
  induction l1 with
  | nil => intro h; simp [scanHeld]
  | cons ev rest ih =>
    intro h
    cases ev <;> simp only [List.cons_append, scanHeld] <;>
      first
        | (split <;> simp [ih])
        | simp [ih]

theorem captureEvents_scan (s : DupState) (e : CaptureEnv) (h : SOK s) :
    scanHeld 0 (captureEvents s e) = some 0 := by
  obtain ⟨h1, h2⟩ := h
  by_cases hi : s.initialized_ = true
  · obtain ⟨hdev, hctx, hdup, hstg⟩ := h1 hi
    rcases e with ⟨acq, qt, fd⟩
    rcases hs : s.staging_texture_ with _ | st <;>
      cases acq <;> cases qt <;>
        simp_all [captureEvents, scanHeld]
  · replace hi : s.initialized_ = false := by simpa using hi
    simp [captureEvents, hi]
    rfl

theorem CaptureFrame_no_crash (s : DupState) (e : CaptureEnv) (h : SOK s) :
    (CaptureFrame s e).1 ≠ CapRes.nullDeref := by
  obtain ⟨h1, h2⟩ := h
  by_cases hi : s.initialized_ = true
  · obtain ⟨hdev, hctx, hdup, hstg⟩ := h1 hi
    rcases e with ⟨acq, qt, fd⟩
    rcases hs : s.staging_texture_ with _ | st <;>
      cases acq <;> cases qt <;>
        simp_all [CaptureFrame]
  · replace hi : s.initialized_ = false := by simpa using hi
    simp [CaptureFrame, hi]

/-- Whether every platform call of `Initialize` succeeds. -/
def initOk (e : InitEnv) : Bool :=
  e.d3dOk && e.queryDeviceOk && e.getAdapterOk && e.enumOutputOk && e.queryOutput1Ok &&
    e.duplicateOk && e.createTextureOk

/-- The state a fully successful `Initialize` produces: every resource
present, staging texture freshly created from the descriptor, the frame
counter carried over unchanged. -/
def readyState (e : InitEnv) (fc : Nat) : DupState :=
  { device_ := true, context_ := true, duplication_ := true
    staging_texture_ := some { width := e.desc.width, height := e.desc.height
                               format := e.desc.format, contents := none }
    duplication_desc_ := e.desc
    initialized_ := true
    frame_count_ := fc }

theorem Initialize_success (s : DupState) (e : InitEnv) (h1 : s.initialized_ = false)
    (h2 : initOk e = true) :
    Initialize s e = (InitRes.ok true, readyState e s.frame_count_) := by
  rcases e with ⟨d3, qd, ga, eo, qo, dup, desc, ct⟩
  simp only [initOk, Bool.and_eq_true] at h2
  obtain ⟨⟨⟨⟨⟨⟨hd3, hqd⟩, hga⟩, heo⟩, hqo⟩, hdup⟩, hct⟩ := h2
  subst hd3 hqd hga heo hqo hdup hct
  simp [Initialize, InitializeD3D11, CreateDuplication, readyState, h1]

theorem Initialize_ok_iff (s : DupState) (e : InitEnv) :
    (Initialize s e).1 = InitRes.ok true ↔ (s.initialized_ = true ∨ initOk e = true) := by
  by_cases hi : s.initialized_ = true
  · simp [Initialize, hi]
  · replace hi : s.initialized_ = false := by simpa using hi
    rcases e with ⟨d3, qd, ga, eo, qo, dup, desc, ct⟩
    cases d3 <;> cases qd <;> cases ga <;> cases eo <;> cases qo <;> cases dup <;> cases ct <;>
      simp_all [Initialize, InitializeD3D11, CreateDuplication, initOk]

theorem Initialize_fail_state (s : DupState) (e : InitEnv) (h1 : s.initialized_ = false)
    (h2 : initOk e = false) :
    (∃ msg : String, (Initialize s e).1 = InitRes.err msg) ∧
      (Initialize s e).2.initialized_ = false := by
  rcases e with ⟨d3, qd, ga, eo, qo, dup, desc, ct⟩
  cases d3 <;> cases qd <;> cases ga <;> cases eo <;> cases qo <;> cases dup <;> cases ct <;>
    simp_all [Initialize, InitializeD3D11, CreateDuplication, initOk]

theorem CaptureFrame_uninit (s : DupState) (e : CaptureEnv) (h : s.initialized_ = false) :
    CaptureFrame s e = (CapRes.err "Not initialized", s) := by
  simp [CaptureFrame, h]

/-- The teardown micro events of `Release`. -/
inductive TEv
  | releaseFrame
  | resetDuplication
  | resetStaging
  | resetContext
  | resetDevice
deriving DecidableEq

/-- The teardown events one `Release` call emits, read off the source: when
`duplication_` is non-null, `ReleaseFrame` then the reset of the
duplication interface; then always the resets of the staging texture, the
context and the device, in the order the source writes them. -/
def releaseEvents (s : DupState) : List TEv :=
  (if s.duplication_ then [TEv.releaseFrame, TEv.resetDuplication] else []) ++
    [TEv.resetStaging, TEv.resetContext, TEv.resetDevice]

theorem step_frame_count (s : DupState) (op : Op) :
    (stepState s op).frame_count_ =
      s.frame_count_ + (if stepRes s op = OpRes.capR (CapRes.ok true) then 1 else 0) := by
  cases op with
  | initOp e =>
    by_cases hi : s.initialized_ = true
    · simp [stepState, stepRes, Initialize, hi]
    · replace hi : s.initialized_ = false := by simpa using hi
      rcases e with ⟨d3, qd, ga, eo, qo, dup, desc, ct⟩
      cases d3 <;> cases qd <;> cases ga <;> cases eo <;> cases qo <;> cases dup <;> cases ct <;>
        simp_all [stepState, stepRes, Initialize, InitializeD3D11, CreateDuplication]
  | captureOp e =>
    rcases s with ⟨dev, ctx, dup, stg, desc, ini, fc⟩
    rcases e with ⟨acq, qt, fd⟩
    cases ini <;> cases dup <;> cases acq <;> cases qt <;> cases ctx <;>
      rcases stg with _ | st <;>
        simp_all [stepState, stepRes, CaptureFrame]
  | textureOp e => simp [stepState, stepRes]
  | frameInfoOp => simp [stepState, stepRes]
  | releaseOp => simp [stepState, stepRes, Release]

theorem runOps_frame_count_mono (ops : List Op) :
    ∀ s : DupState, s.frame_count_ ≤ (runOps s ops).frame_count_ := by
  induction ops with
  | nil => intro s; exact le_refl _
  | cons op rest ih =>
    intro s
    have h1 : s.frame_count_ ≤ (stepState s op).frame_count_ := by
      rw [step_frame_count]
      exact Nat.le_add_right _ _
    exact le_trans h1 (ih (stepState s op))

/-- C1: for every sequence of `captureFrame` calls on one session, no two
frame acquisitions occur without an intervening `ReleaseFrame` — every
successful `AcquireNextFrame` is released on every path, the failed
texture-query path included, before the next acquisition attempt, and the
trace ends with no frame held.  `scanHeld` returns `none` the moment an
acquisition is attempted while a frame is still held, so the result
`some 0` also shows that the guarded condition of the claim — an
acquisition attempt while a frame is already held — never occurs on any
call sequence (the source keeps the pairing inside each call, so the
`FrameAlreadyHeld` rejection of the claim is satisfied vacuously: no such
attempt exists to reject). -/
theorem C1_acquire_release_pairing (s : DupState) (envs : List CaptureEnv)
    (hs : Reachable s) :
    scanHeld 0 (captureTrace s envs) = some 0 := by
  have hok := reachable_SOK s hs
  clear hs
  induction envs generalizing s with
  | nil => rfl
  | cons e rest ih =>
    have hnd := CaptureFrame_no_crash s e hok
    have hev := captureEvents_scan s e hok
    rw [captureTrace, if_neg hnd, scanHeld_append, hev, Option.some_bind]
    exact ih (CaptureFrame s e).2 (SOK_Capture s e hok)

/-- C2: a `DXGI_ERROR_ACCESS_LOST` acquisition makes `captureFrame` return
`false` and clears `initialized_`, so `getFrameInfo` returns `undefined`
and every further `captureFrame` is rejected without a state change, until
`release` followed by a fully successful `initialize`, after which a
successful acquisition captures normally again (returns `true`). -/
theorem C2_access_lost_resets (s : DupState) (e : CaptureEnv)
    (hs : Reachable s) (hinit : s.initialized_ = true)
    (hacq : e.acquire = AcquireOutcome.accessLost) :
    (CaptureFrame s e).1 = CapRes.ok false ∧
    (CaptureFrame s e).2.initialized_ = false ∧
    GetFrameInfo (CaptureFrame s e).2 = none ∧
    (∀ e2 : CaptureEnv,
      CaptureFrame (CaptureFrame s e).2 e2 =
        (CapRes.err "Not initialized", (CaptureFrame s e).2)) ∧
    (∀ ie : InitEnv, initOk ie = true →
      (Initialize (Release (CaptureFrame s e).2) ie).1 = InitRes.ok true ∧
      (Initialize (Release (CaptureFrame s e).2) ie).2.initialized_ = true ∧
      (∀ e3 : CaptureEnv, e3.acquire = AcquireOutcome.success → e3.queryTextureOk = true →
        (CaptureFrame (Initialize (Release (CaptureFrame s e).2) ie).2 e3).1 = CapRes.ok true)) := by
  have hok := reachable_SOK s hs
  have hdup : s.duplication_ = true := (hok.1 hinit).2.2.1
  have hcf : CaptureFrame s e = (CapRes.ok false, { s with initialized_ := false }) := by
    simp [CaptureFrame, hinit, hdup, hacq]
  rw [hcf]
  refine ⟨rfl, rfl, by simp [GetFrameInfo], ?_, ?_⟩
  · intro e2
    exact CaptureFrame_uninit _ e2 rfl
  · intro ie hie
    have hini := Initialize_success (Release { s with initialized_ := false }) ie rfl hie
    rw [hini]
    refine ⟨rfl, rfl, ?_⟩
    intro e3 h3a h3q
    simp [CaptureFrame, readyState, h3a, h3q]

/-- C3: across every sequence of calls on one object the frame counter
never decreases, and a single call increments it by exactly one when it is
a `captureFrame` returning `true` and leaves it unchanged otherwise
(timeout, transient or fatal failure, failed texture query, and every
other method). -/
theorem C3_frame_count_monotone (s : DupState) (ops : List Op) (op : Op) :
    s.frame_count_ ≤ (runOps s ops).frame_count_ ∧
    (stepState s op).frame_count_ =
      s.frame_count_ + (if stepRes s op = OpRes.capR (CapRes.ok true) then 1 else 0) :=
  ⟨runOps_frame_count_mono ops s, step_frame_count s op⟩

/-- C4: `captureFrame` on a session whose `initialized_` flag is clear
(the Uninitialized and Lost states both have it clear) throws
`"Not initialized"` immediately and performs no work: the state — flag,
counter, resources — is returned untouched and no acquisition is
attempted. -/
theorem C4_capture_not_initialized (s : DupState) (e : CaptureEnv)
    (h : s.initialized_ = false) :
    CaptureFrame s e = (CapRes.err "Not initialized", s) :=
  CaptureFrame_uninit s e h

/-- C5: whenever `initialize` does not fully succeed it throws an error to
the caller, and the resulting state is Uninitialized — `initialized_` is
clear, every `captureFrame` is rejected with `"Not initialized"` and
`getFrameInfo` returns `undefined`, so no usable partial session exists. -/
theorem C5_setup_failure_uninitialized (s : DupState) (e : InitEnv)
    (hfail : (Initialize s e).1 ≠ InitRes.ok true) :
    (∃ msg : String, (Initialize s e).1 = InitRes.err msg) ∧
    (Initialize s e).2.initialized_ = false ∧
    (∀ ce : CaptureEnv,
      CaptureFrame (Initialize s e).2 ce =
        (CapRes.err "Not initialized", (Initialize s e).2)) ∧
    GetFrameInfo (Initialize s e).2 = none := by
  have hni : ¬(s.initialized_ = true ∨ initOk e = true) := fun h =>
    hfail ((Initialize_ok_iff s e).2 h)
  push_neg at hni
  obtain ⟨h1, h2⟩ := hni
  replace h1 : s.initialized_ = false := by simpa using h1
  replace h2 : initOk e = false := by simpa using h2
  obtain ⟨hmsg, hstate⟩ := Initialize_fail_state s e h1 h2
  refine ⟨hmsg, hstate, ?_, ?_⟩
  · intro ce
    exact CaptureFrame_uninit _ ce hstate
  · simp [GetFrameInfo, hstate]

/-- C6: every successful `getTexture` result satisfies
`data.length = height * pitch` exactly (the source sizes the buffer as
`ModeDesc.Height * RowPitch`), and — given the platform guarantee that a
mapping's `RowPitch` is at least the mapped texture's width times its
bytes per pixel — `pitch >= width * bytesPerPixel(format)` for the
reported width and the descriptor format, since on every reachable state
the staging texture geometry equals the descriptor captured at session
creation. -/
theorem C6_texture_geometry (bpp : Nat → Nat) (s : DupState) (te : TexEnv) (t : TexData)
    (hs : Reachable s)
    (hplat : ∀ st : StagingTex, s.staging_texture_ = some st → te.mapOk = true →
      st.width * bpp st.format ≤ te.rowPitch)
    (ht : GetTexture s te = TexOut.val t) :
    t.dataLen = t.height * t.pitch ∧
    t.width * bpp s.duplication_desc_.format ≤ t.pitch := by
  have hok := reachable_SOK s hs
  rcases hstg : s.staging_texture_ with _ | st
  · rw [GetTexture, hstg] at ht
    cases ht
  · obtain ⟨hw, hh, hf⟩ := hok.2 st hstg
    by_cases hctx : s.context_ = true
    · by_cases hmap : te.mapOk = true
      · rw [GetTexture, hstg] at ht
        simp only [hctx, hmap, Bool.not_true, Bool.false_eq_true, if_false] at ht
        cases ht
        constructor
        · rfl
        · have := hplat st hstg hmap
          rw [hw, hf] at this
          exact this
      · replace hmap : te.mapOk = false := by simpa using hmap
        rw [GetTexture, hstg] at ht
        simp [hctx, hmap] at ht
    · replace hctx : s.context_ = false := by simpa using hctx
      rw [GetTexture, hstg] at ht
      simp [hctx] at ht

/-- C7: `Release` is an idempotent teardown.  Its effect is the same
however many times it is repeated (safe from the destructor path too, which
calls it once more), it never fails on any state — a frame handle cannot be
outstanding between calls, and the `ReleaseFrame` it issues covers one if
the process died mid-call — and it leaves every resource null and the state
Uninitialized; its teardown events follow the strict order: outstanding
frame, duplication interface, staging buffer, context, device. -/
theorem C7_release_idempotent_teardown (s : DupState) (n : Nat) :
    Release (Release s) = Release s ∧
    Release^[n + 1] s = Release s ∧
    (Release s).device_ = false ∧ (Release s).context_ = false ∧
    (Release s).duplication_ = false ∧ (Release s).staging_texture_ = none ∧
    (Release s).initialized_ = false ∧
    List.Sublist (releaseEvents s) [TEv.releaseFrame, TEv.resetDuplication, TEv.resetStaging,
      TEv.resetContext, TEv.resetDevice] := by
  have hidem : Release (Release s) = Release s := rfl
  have hiter : Release^[n + 1] s = Release s := by
    induction n with
    | zero => rfl
    | succ k ih =>
      rw [Function.iterate_succ_apply', ih]
      exact hidem
  refine ⟨hidem, hiter, rfl, rfl, rfl, rfl, rfl, ?_⟩
  by_cases hd : s.duplication_ = true
  · simp [releaseEvents, hd]
  · replace hd : s.duplication_ = false := by simpa using hd
    simp only [releaseEvents, hd, if_false, List.nil_append]
    exact ((List.Sublist.refl _).cons _).cons _

/-- C8: `initialize` on an already-initialized session returns `true`
again and changes nothing — the very same state comes back, so no device,
duplication interface or staging buffer is reallocated, whatever the
environment would have answered. -/
theorem C8_Initialize_idempotent (s : DupState) (e : InitEnv)
    (h : s.initialized_ = true) :
    Initialize s e = (InitRes.ok true, s) := by
  simp [Initialize, h]

/-- C9: `getTexture` reads only `staging_texture_`, `context_` and the
descriptor, never `initialized_`.  After a fatal `DXGI_ERROR_ACCESS_LOST`
acquisition clears `initialized_` (and before `release`), `getFrameInfo`
returns `undefined` while `getTexture` behaves exactly as before the error
and still returns the last copied frame data whenever the mapping
succeeds. -/
theorem C9_texture_survives_access_lost (s : DupState) (e : CaptureEnv)
    (hs : Reachable s) (hinit : s.initialized_ = true)
    (hacq : e.acquire = AcquireOutcome.accessLost) :
    (CaptureFrame s e).2.initialized_ = false ∧
    GetFrameInfo (CaptureFrame s e).2 = none ∧
    (∀ te : TexEnv, GetTexture (CaptureFrame s e).2 te = GetTexture s te) ∧
    (∀ te : TexEnv, te.mapOk = true →
      ∃ t : TexData, GetTexture (CaptureFrame s e).2 te = TexOut.val t) := by
  have hok := reachable_SOK s hs
  obtain ⟨hdev, hctx, hdup, hstgS⟩ := hok.1 hinit
  have hcf : CaptureFrame s e = (CapRes.ok false, { s with initialized_ := false }) := by
    simp [CaptureFrame, hinit, hdup, hacq]
  rw [hcf]
  have htex : ∀ te : TexEnv, GetTexture { s with initialized_ := false } te = GetTexture s te := by
    intro te
    rfl
  refine ⟨rfl, by simp [GetFrameInfo], htex, ?_⟩
  intro te hmap
  rw [htex te]
  rcases hstg : s.staging_texture_ with _ | st
  · rw [hstg] at hstgS
    simp at hstgS
  · refine ⟨{ dataSrc := st.contents
              dataLen := s.duplication_desc_.height * te.rowPitch
              width := s.duplication_desc_.width
              height := s.duplication_desc_.height
              pitch := te.rowPitch }, ?_⟩
    rw [GetTexture, hstg]
    simp [hctx, hmap]

/-- C10: `release` resets every resource and the flag but never
`frame_count_`; after `release` and a fully successful `initialize` on the
same object, `getFrameInfo` reports a `frameCount` that continues from the
previous session instead of restarting at zero. -/
theorem C10_frame_count_survives_release (s : DupState) (e : InitEnv)
    (h : initOk e = true) :
    (Release s).frame_count_ = s.frame_count_ ∧
    (Initialize (Release s) e).1 = InitRes.ok true ∧
    GetFrameInfo (Initialize (Release s) e).2 =
      some { width := e.desc.width, height := e.desc.height
             refreshNum := e.desc.refreshNum, refreshDen := e.desc.refreshDen
             frameCount := s.frame_count_ } := by
  have hini := Initialize_success (Release s) e rfl h
  rw [hini]
  exact ⟨rfl, rfl, by simp [GetFrameInfo, readyState, Release]⟩

/-- A fully successful environment for `Initialize`: a 1920x1080 output at
60 Hz in `DXGI_FORMAT_B8G8R8A8_UNORM` (format code 87). -/
def goodInitEnv : InitEnv :=
  { d3dOk := true, queryDeviceOk := true, getAdapterOk := true, enumOutputOk := true
    queryOutput1Ok := true, duplicateOk := true
    desc := { width := 1920, height := 1080, format := 87, refreshNum := 60, refreshDen := 1 }
    createTextureOk := true }

/-- An `Initialize` environment where `D3D11CreateDevice` fails. -/
def badInitEnv : InitEnv := { goodInitEnv with d3dOk := false }

/-- The session right after one successful `initialize`. -/
def readyS : DupState := runOps initState [Op.initOp goodInitEnv]

/-- The session after a successful `initialize` and one successful
`captureFrame`. -/
def capturedS : DupState :=
  runOps initState
    [Op.initOp goodInitEnv,
     Op.captureOp { acquire := AcquireOutcome.success, queryTextureOk := true, frameData := 5 }]

/-- A successful mapping environment for `GetTexture` with a padded pitch
of 7680 bytes per row. -/
def wTe : TexEnv := { mapOk := true, rowPitch := 7680 }

/-- The value `GetTexture readyS wTe` produces. -/
def wT : TexData :=
  { dataSrc := none, dataLen := 1080 * 7680, width := 1920, height := 1080, pitch := 7680 }

theorem C1_acquire_release_pairing_witness :
    scanHeld 0 (captureTrace readyS
      [{ acquire := AcquireOutcome.success, queryTextureOk := true, frameData := 1 },
       { acquire := AcquireOutcome.timeout, queryTextureOk := true, frameData := 0 },
       { acquire := AcquireOutcome.success, queryTextureOk := false, frameData := 2 }]) =
      some 0 :=
  C1_acquire_release_pairing readyS _ ⟨[Op.initOp goodInitEnv], rfl⟩

theorem C2_access_lost_resets_witness :
    (CaptureFrame readyS
        { acquire := AcquireOutcome.accessLost, queryTextureOk := true, frameData := 0 }).1 =
      CapRes.ok false ∧
    GetFrameInfo (CaptureFrame readyS
        { acquire := AcquireOutcome.accessLost, queryTextureOk := true, frameData := 0 }).2 =
      none := by
  have h := C2_access_lost_resets readyS
    { acquire := AcquireOutcome.accessLost, queryTextureOk := true, frameData := 0 }
    ⟨[Op.initOp goodInitEnv], rfl⟩ rfl rfl
  exact ⟨h.1, h.2.2.1⟩

theorem C4_capture_not_initialized_witness :
    CaptureFrame initState
        { acquire := AcquireOutcome.success, queryTextureOk := true, frameData := 0 } =
      (CapRes.err "Not initialized", initState) :=
  C4_capture_not_initialized initState _ rfl

theorem C5_setup_failure_uninitialized_witness :
    (∃ msg : String, (Initialize initState badInitEnv).1 = InitRes.err msg) ∧
    (Initialize initState badInitEnv).2.initialized_ = false := by
  have h := C5_setup_failure_uninitialized initState badInitEnv (by decide)
  exact ⟨h.1, h.2.1⟩

theorem C6_texture_geometry_witness :
    wT.dataLen = wT.height * wT.pitch ∧ wT.width * 4 ≤ wT.pitch := by
  have h := C6_texture_geometry (fun _ => 4) readyS wTe wT ⟨[Op.initOp goodInitEnv], rfl⟩
    (by intro st hst hm
        have hst2 : some ({ width := 1920, height := 1080, format := 87, contents := none } :
            StagingTex) = some st := hst
        obtain rfl := Option.some.inj hst2
        decide)
    (by decide)
  exact h

theorem C8_Initialize_idempotent_witness :
    Initialize readyS goodInitEnv = (InitRes.ok true, readyS) :=
  C8_Initialize_idempotent readyS goodInitEnv rfl

theorem C9_texture_survives_access_lost_witness :
    GetFrameInfo (CaptureFrame capturedS
        { acquire := AcquireOutcome.accessLost, queryTextureOk := true, frameData := 0 }).2 =
      none ∧
    GetTexture (CaptureFrame capturedS
        { acquire := AcquireOutcome.accessLost, queryTextureOk := true, frameData := 0 }).2 wTe =
      GetTexture capturedS wTe := by
  have h := C9_texture_survives_access_lost capturedS
    { acquire := AcquireOutcome.accessLost, queryTextureOk := true, frameData := 0 }
    ⟨[Op.initOp goodInitEnv,
      Op.captureOp { acquire := AcquireOutcome.success, queryTextureOk := true, frameData := 5 }],
     rfl⟩ rfl rfl
  exact ⟨h.2.1, h.2.2.1 wTe⟩

theorem C10_frame_count_survives_release_witness :
    (Release capturedS).frame_count_ = capturedS.frame_count_ ∧
    GetFrameInfo (Initialize (Release capturedS) goodInitEnv).2 =
      some { width := 1920, height := 1080, refreshNum := 60, refreshDen := 1, frameCount := 1 } := by
  have h := C10_frame_count_survives_release capturedS goodInitEnv rfl
  refine ⟨h.1, ?_⟩
  rw [h.2.2]
  rfl
